import Mathlib

/-!
Verification development for `scripts/synthesize_data.py`, a Blender-driving
script that renders chessboard images and writes per-sample JSON metadata.

The script is shallowly embedded: Python floats become `ℚ` (the claims under
study are structural, not about rounding error), the host application's
scene state (`bpy.data` / `bpy.context`) becomes an explicit `Scene` record,
host-provided primitives (`world_to_camera_view`, evaluated mesh vertices,
`camera.view_frame`) become parameters collected in a `Host` record, and
uncaught Python exceptions become `Except` errors.  Side effects (logging,
object placement, file writes, render invocations) are recorded as an event
trace so that ordering claims can be stated.
-/

/- ### Module-level constants (synthesize_data.py lines 16-23) -/

def CAMERA_STATIC : Bool := false

def LIGHT_STATIC : Bool := true

/-- `MIN_BOARD_CORNER_PADDING = 25` pixels. -/
def MIN_BOARD_CORNER_PADDING : ℤ := 25

def CAMERA_DISTANCE : ℚ := 15

/-- `BOARD_SIZE = 16.0` meters. -/
def BOARD_SIZE : ℚ := 16

/-- `BOARD_MARGIN = 0.75` meters (on each side). -/
def BOARD_MARGIN : ℚ := 3 / 4

/-- `SQUARE_LENGTH = (BOARD_SIZE - 2 * BOARD_MARGIN) / 8`. -/
def SQUARE_LENGTH : ℚ := (BOARD_SIZE - 2 * BOARD_MARGIN) / 8

def COLLECTION_NAME : String := "Chess position"

/- ### Python's `round` (banker's rounding: nearest integer, ties to even) -/

/-- Python 3 `round(x)` on a float: the nearest integer, ties going to the
even integer. -/
def pyRound (q : ℚ) : ℤ :=
  if q - ⌊q⌋ < 1 / 2 then ⌊q⌋
  else if 1 / 2 < q - ⌊q⌋ then ⌊q⌋ + 1
  else if ⌊q⌋ % 2 = 0 then ⌊q⌋ else ⌊q⌋ + 1

lemma pyRound_nonneg {q : ℚ} (h : 0 ≤ q) : 0 ≤ pyRound q := by
  have h0 : (0 : ℤ) ≤ ⌊q⌋ := Int.le_floor.mpr (by exact_mod_cast h)
  unfold pyRound
  split_ifs <;> omega

/- ### Vectors and the chess data the script consumes -/

/-- A `mathutils.Vector` with three components. -/
structure Vec3 where
  x : ℚ
  y : ℚ
  z : ℚ
deriving DecidableEq, Repr

/-- `chess.PAWN` … `chess.KING`. -/
inductive PieceType where
  | pawn
  | knight
  | bishop
  | rook
  | queen
  | king
deriving DecidableEq, Repr

/-- A `chess.Piece`: `color` is `chess.WHITE = True` / `chess.BLACK = False`. -/
structure Piece where
  color : Bool
  pieceType : PieceType
deriving DecidableEq, Repr

/-- The color half of the model-name lookup table in `add_piece` (lines 122-125). -/
def colorName (c : Bool) : String := if c then "White" else "Black"

/-- The piece-type half of the lookup table in `add_piece` (lines 126-133). -/
def pieceTypeName : PieceType → String
  | .pawn => "Pawn"
  | .knight => "Knight"
  | .bishop => "Bishop"
  | .rook => "Rook"
  | .queen => "Queen"
  | .king => "King"

/-- `name = color + " " + piece_name` (line 134): the source model object's name. -/
def modelName (p : Piece) : String := colorName p.color ++ " " ++ pieceTypeName p.pieceType

/-- Lowercase FEN letter of a piece type, as python-chess `PIECE_SYMBOLS`. -/
def pieceTypeSymbol : PieceType → String
  | .pawn => "p"
  | .knight => "n"
  | .bishop => "b"
  | .rook => "r"
  | .queen => "q"
  | .king => "k"

/-- python-chess `Piece.symbol()`: uppercase for white, lowercase for black. -/
def pieceSymbol (p : Piece) : String :=
  if p.color then (pieceTypeSymbol p.pieceType).toUpper else pieceTypeSymbol p.pieceType

/-- `chess.square_file`: squares are numbered 0..63, file = square mod 8. -/
def square_file (square : Nat) : Nat := square % 8

/-- `chess.square_rank`: rank = square div 8. -/
def square_rank (square : Nat) : Nat := square / 8

/-- `chess.square_name`: file letter `a`-`h` followed by rank digit `1`-`8`. -/
def square_name (square : Nat) : String :=
  String.mk [Char.ofNat (97 + square_file square), Char.ofNat (49 + square_rank square)]

/-- The location `add_piece` computes (lines 137-144):
`x = -BOARD_SIZE / 2 + BOARD_MARGIN + (file + 0.5) * SQUARE_LENGTH`, same for
`y` with the rank, and `z = 0`. -/
def piece_location (square : Nat) : Vec3 :=
  ⟨-BOARD_SIZE / 2 + BOARD_MARGIN + ((square_file square : ℚ) + 1 / 2) * SQUARE_LENGTH,
   -BOARD_SIZE / 2 + BOARD_MARGIN + ((square_rank square : ℚ) + 1 / 2) * SQUARE_LENGTH,
   0⟩

/- ### Render settings (`scene.render`, lines 170-174 and 225, 297-300) -/

/-- The slice of `bpy.context.scene.render` the script reads. -/
structure RenderSettings where
  resolution_x : ℤ
  resolution_y : ℤ
  resolution_percentage : ℚ
deriving DecidableEq, Repr

/-- `fac = r.resolution_percentage * 0.01` (line 298). -/
def fac (sr : RenderSettings) : ℚ := sr.resolution_percentage * (1 / 100)

/-- `dim_x = r.resolution_x * fac` (line 299). -/
def dim_x (sr : RenderSettings) : ℚ := (sr.resolution_x : ℚ) * fac sr

/-- `dim_y = r.resolution_y * fac` (line 300). -/
def dim_y (sr : RenderSettings) : ℚ := (sr.resolution_y : ℚ) * fac sr

/- ### get_corner_coordinates (lines 219-244) -/

/-- The four fixed board-corner points
`[[-1,-1],[-1,1],[1,1],[1,-1]] * 4 * SQUARE_LENGTH`, with a zero z column
appended (lines 220-224). -/
def cornerPoints : List Vec3 :=
  ([⟨-1, -1, 0⟩, ⟨-1, 1, 0⟩, ⟨1, 1, 0⟩, ⟨1, -1, 0⟩] : List Vec3).map
    (fun v => ⟨v.x * (4 * SQUARE_LENGTH), v.y * (4 * SQUARE_LENGTH), v.z⟩)

/-- One iteration of the `_get_coords` generator before the bounds check
(lines 229-234): project the corner with `world_to_camera_view` (the
parameter `proj`), flip the vertical axis, scale by resolution and
percentage, and round both pixel coordinates. -/
def cornerPixel (proj : Vec3 → Vec3) (sr : RenderSettings) (corner : Vec3) : ℤ × ℤ :=
  (pyRound ((proj corner).x * (sr.resolution_x : ℚ) * sr.resolution_percentage * (1 / 100)),
   pyRound ((1 - (proj corner).y) * (sr.resolution_y : ℚ) * sr.resolution_percentage * (1 / 100)))

/-- The padding predicate of lines 236-237 (both axes in bounds). -/
def inPaddedFrame (sr : RenderSettings) (x y : ℤ) : Prop :=
  (MIN_BOARD_CORNER_PADDING ≤ x ∧ x ≤ sr.resolution_x - MIN_BOARD_CORNER_PADDING) ∧
  (MIN_BOARD_CORNER_PADDING ≤ y ∧ y ≤ sr.resolution_y - MIN_BOARD_CORNER_PADDING)

instance (sr : RenderSettings) (x y : ℤ) : Decidable (inPaddedFrame sr x y) :=
  inferInstanceAs (Decidable (_ ∧ _))

/-- One yield of `_get_coords`: `none` models the `raise ValueError` of
line 238 (the check is written exactly as the source's
`not (…) or not (…)`). -/
def project_corner (proj : Vec3 → Vec3) (sr : RenderSettings) (corner : Vec3) :
    Option (ℤ × ℤ) :=
  if ¬ (MIN_BOARD_CORNER_PADDING ≤ (cornerPixel proj sr corner).1 ∧
        (cornerPixel proj sr corner).1 ≤ sr.resolution_x - MIN_BOARD_CORNER_PADDING) ∨
     ¬ (MIN_BOARD_CORNER_PADDING ≤ (cornerPixel proj sr corner).2 ∧
        (cornerPixel proj sr corner).2 ≤ sr.resolution_y - MIN_BOARD_CORNER_PADDING) then
    none
  else
    some (cornerPixel proj sr corner)

/-- `list(_get_coords())` under the `try`/`except ValueError` of lines
241-244: a `ValueError` raised anywhere while the list is being collected
makes the whole result `None`. -/
def collect_corners (proj : Vec3 → Vec3) (sr : RenderSettings) : List Vec3 → Option (List (ℤ × ℤ))
  | [] => some []
  | c :: rest =>
    match project_corner proj sr c with
    | none => none
    | some p =>
      match collect_corners proj sr rest with
      | none => none
      | some ps => some (p :: ps)

/-- `get_corner_coordinates(scene)`, with the camera pose abstracted into the
projection `proj`. -/
def get_corner_coordinates (proj : Vec3 → Vec3) (sr : RenderSettings) :
    Option (List (ℤ × ℤ)) :=
  collect_corners proj sr cornerPoints

/- ### get_bounding_box geometry (lines 247-313) -/

/-- The three retained, negated `camera.view_frame` vectors
(`frame = [-v for v in camera.view_frame(scene=scene)[:3]]`, line 269). -/
structure Frame3 where
  f0 : Vec3
  f1 : Vec3
  f2 : Vec3
deriving DecidableEq, Repr

/-- `v / (v.z / z)` on a `mathutils.Vector` (componentwise), line 278. -/
def vecDivScale (v : Vec3) (z : ℚ) : Vec3 :=
  ⟨v.x / (v.z / z), v.y / (v.z / z), v.z / (v.z / z)⟩

/-- `frame = [(v / (v.z / z)) for v in frame]` (line 278). -/
def scaleFrame (fr : Frame3) (z : ℚ) : Frame3 :=
  ⟨vecDivScale fr.f0 z, vecDivScale fr.f1 z, vecDivScale fr.f2 z⟩

/-- The `_get_coords` generator of `get_bounding_box` (lines 268-286): walk
the mesh vertices (already transformed into camera-local coordinates),
silently skip any vertex with depth `z = -co_local.z <= 0` (leaving `frame`
untouched, as `continue` does), otherwise rescale `frame` to the vertex's
depth and yield the normalized coordinates. -/
def get_coords : List Vec3 → Frame3 → List (ℚ × ℚ)
  | [], _ => []
  | v :: rest, frame =>
    if -v.z ≤ 0 then
      get_coords rest frame
    else
      ((v.x - (scaleFrame frame (-v.z)).f1.x) /
         ((scaleFrame frame (-v.z)).f2.x - (scaleFrame frame (-v.z)).f1.x),
       (v.y - (scaleFrame frame (-v.z)).f0.y) /
         ((scaleFrame frame (-v.z)).f1.y - (scaleFrame frame (-v.z)).f0.y))
        :: get_coords rest (scaleFrame frame (-v.z))

/-- Python `min` over a nonempty collection. -/
def listMin (x : ℚ) (l : List ℚ) : ℚ := l.foldl min x

/-- Python `max` over a nonempty collection. -/
def listMax (x : ℚ) (l : List ℚ) : ℚ := l.foldl max x

/-- `np.clip(v, 0.0, 1.0)`. -/
def clip01 (q : ℚ) : ℚ := min (max q 0) 1

/-- `min_x = np.clip(min(xs), 0.0, 1.0)` (line 290), `xs` the first
components of the yielded coordinates `c :: cs`. -/
def bbMinX (c : ℚ × ℚ) (cs : List (ℚ × ℚ)) : ℚ := clip01 (listMin c.1 (cs.map Prod.fst))

/-- `max_x = np.clip(max(xs), 0.0, 1.0)` (line 291). -/
def bbMaxX (c : ℚ × ℚ) (cs : List (ℚ × ℚ)) : ℚ := clip01 (listMax c.1 (cs.map Prod.fst))

/-- `min_y = np.clip(min(ys), 0.0, 1.0)` (line 292). -/
def bbMinY (c : ℚ × ℚ) (cs : List (ℚ × ℚ)) : ℚ := clip01 (listMin c.2 (cs.map Prod.snd))

/-- `max_y = np.clip(max(ys), 0.0, 1.0)` (line 293). -/
def bbMaxY (c : ℚ × ℚ) (cs : List (ℚ × ℚ)) : ℚ := clip01 (listMax c.2 (cs.map Prod.snd))

/-- `width = round((max_x - min_x) * dim_x)` (line 302). -/
def bbWidth (c : ℚ × ℚ) (cs : List (ℚ × ℚ)) (sr : RenderSettings) : ℤ :=
  pyRound ((bbMaxX c cs - bbMinX c cs) * dim_x sr)

/-- `height = round((max_y - min_y) * dim_y)` (line 303). -/
def bbHeight (c : ℚ × ℚ) (cs : List (ℚ × ℚ)) (sr : RenderSettings) : ℤ :=
  pyRound ((bbMaxY c cs - bbMinY c cs) * dim_y sr)

/-- The uncaught Python exceptions the script can raise. -/
inductive BErr where
  /-- `AttributeError`: attribute access on `None` (`obj.evaluated_get` when
  `add_piece` returned `None`). -/
  | attributeError
  /-- `ValueError`: `xs, ys = np.array([]).T` fails to unpack when
  `_get_coords` yielded nothing (line 288). -/
  | valueError
deriving DecidableEq, Repr

/-- The pure tail of `get_bounding_box` (lines 288-313), taking the
camera-local mesh vertices and the negated view frame as input: unpack the
collected coordinates (raising `ValueError` when there are none), clip the
min/max normalized coordinates to `[0,1]`, convert to pixels and return
`None` for a zero-sized box, else the `(x, y, width, height)` tuple. -/
def get_bounding_box_core (verts : List Vec3) (frame : Frame3) (sr : RenderSettings) :
    Except BErr (Option (ℤ × ℤ × ℤ × ℤ)) :=
  match get_coords verts frame with
  | [] => Except.error BErr.valueError
  | c :: cs =>
    if bbWidth c cs sr = 0 ∨ bbHeight c cs sr = 0 then Except.ok none
    else
      Except.ok (some (pyRound (bbMinX c cs * dim_x sr),
                       pyRound (dim_y sr - bbMaxY c cs * dim_y sr),
                       bbWidth c cs sr,
                       bbHeight c cs sr))

/- ### JSON values (what `json.dump` writes, lines 202-211) -/

/-- A JSON value as `json.dump` serializes the Python dict of lines 203-208:
tuples and lists become arrays, `None` becomes null. -/
inductive Json where
  | null
  | bool (b : Bool)
  | num (q : ℚ)
  | str (s : String)
  | arr (xs : List Json)
  | obj (fields : List (String × Json))

/-- The keys of a top-level JSON object. -/
def jsonTopKeys : Json → List String
  | .obj fields => fields.map Prod.fst
  | _ => []

/-- One entry of `piece_data` (lines 196-200). -/
structure PieceEntry where
  piece : String
  square : String
  box : Option (ℤ × ℤ × ℤ × ℤ)
deriving DecidableEq, Repr

/-- A bounding box as serialized: `None` → null, tuple → array. -/
def boxJson : Option (ℤ × ℤ × ℤ × ℤ) → Json
  | none => Json.null
  | some (a, b, c, d) => Json.arr [Json.num a, Json.num b, Json.num c, Json.num d]

/-- One `piece_data` entry as serialized (lines 196-200). -/
def pieceEntryJson (e : PieceEntry) : Json :=
  Json.obj [("piece", Json.str e.piece), ("square", Json.str e.square), ("box", boxJson e.box)]

/-- The corner list as serialized: `None` → null, list of pairs → array of
2-arrays. -/
def cornersJson : Option (List (ℤ × ℤ)) → Json
  | none => Json.null
  | some l => Json.arr (l.map (fun p => Json.arr [Json.num p.1, Json.num p.2]))

/-- The `data` dict of lines 203-208, exactly its four keys in order. -/
def mkDataJson (fen : String) (turn : Bool) (corners : Option (List (ℤ × ℤ)))
    (entries : List PieceEntry) : Json :=
  Json.obj [("fen", Json.str fen),
            ("white_turn", Json.bool turn),
            ("corners", cornersJson corners),
            ("pieces", Json.arr (entries.map pieceEntryJson))]

/- ### Paths, scene state, host primitives -/

/-- A `pathlib.Path` as the script uses it: `output_path.parent`,
`output_path.stem` and the suffix. -/
structure PyPath where
  parent : String
  stem : String
  suffix : String
deriving DecidableEq, Repr

/-- A file the script writes: the JSON sidecar (line 210-211) or the
rendered image (line 215). -/
inductive FileOut where
  | jsonFile (path : PyPath) (content : Json)
  | imageFile (path : PyPath)

/-- A piece object placed by `add_piece`: the copy of the source model with
its location (line 160) and z-rotation (line 161, `-1.5708` radians). -/
structure PlacedObj where
  name : String
  square : Nat
  location : Vec3
  rotation_z : ℚ
deriving DecidableEq, Repr

/-- The object `add_piece` links into the collection (lines 157-162). -/
def mkPlaced (piece : Piece) (square : Nat) : PlacedObj :=
  ⟨modelName piece, square, piece_location square, -(15708 / 10000 : ℚ)⟩

/-- The slice of mutable host state (`bpy.data` and the scene) the script
reads and writes: the named source model objects, the contents of the
"Chess position" collection, and the render percentage (the script sets
`resolution_x`/`resolution_y` itself, lines 173-174). -/
structure Scene where
  sourceModels : List String
  collectionObjects : List PlacedObj
  resolution_percentage : ℚ
deriving DecidableEq, Repr

/-- Host-provided primitives that the script only calls, never implements:
`world_to_camera_view` under the camera pose `setup_camera` sampled
(`proj`), the evaluated camera-local mesh vertices of a placed object
(`meshVerts`, lines 260-264), and the negated `camera.view_frame` triple
(`frame`, line 269). -/
structure Host where
  proj : Vec3 → Vec3
  meshVerts : PlacedObj → List Vec3
  frame : Frame3

/-- `get_bounding_box(scene, obj)` as `render_board` calls it (line 199):
when `add_piece` returned `None`, the attribute access
`obj.evaluated_get(depsgraph)` (line 261) raises `AttributeError`; otherwise
the geometry of `get_bounding_box_core` runs on the host-provided mesh. -/
def get_bounding_box (host : Host) (sr : RenderSettings) :
    Option PlacedObj → Except BErr (Option (ℤ × ℤ × ℤ × ℤ))
  | none => Except.error BErr.attributeError
  | some o => get_bounding_box_core (host.meshVerts o) host.frame sr

/- ### Events: the side effects of one `render_board` call, in order -/

/-- The observable side effects of `render_board`, in program order. -/
inductive Ev where
  /-- `setup_camera(turn)` (line 178). -/
  | setupCamera
  /-- `setup_lighting()` (line 180). -/
  | setupLighting
  /-- `get_corner_coordinates(scene)` (line 181). -/
  | getCorners
  /-- the removal loop over the collection (lines 190-191). -/
  | clearCollection
  /-- `add_piece` copied and linked a model (lines 157-162). -/
  | placePiece (name : String)
  /-- `add_piece` logged the missing-model error and returned `None`
  (lines 155-156). -/
  | skipPiece (name : String)
  /-- `get_bounding_box(scene, obj)` called for a square (line 199). -/
  | getBox (square : Nat)
  /-- `json.dump(data, f)` (lines 209-211). -/
  | writeJson
  /-- `bpy.ops.render.render(write_still=1)` (line 215). -/
  | render
deriving DecidableEq, Repr

/-- Which events the piece loop (lines 193-200) can emit. -/
def Ev.isPieceEv : Ev → Bool
  | .placePiece _ => true
  | .skipPiece _ => true
  | .getBox _ => true
  | _ => false

/- ### add_piece (lines 121-163) -/

/-- What one `add_piece` call produced: its log events, the returned object
(`None` for a missing model), and the updated scene. -/
structure AddResult where
  evs : List Ev
  obj : Option PlacedObj
  scene : Scene
deriving Repr

/-- `add_piece(piece, square, collection)`: look the model name up in
`bpy.data.objects`; if absent, log and return `None` (lines 153-156),
else copy it, place it at the square's location and link it into the
collection (lines 157-163). -/
def add_piece (piece : Piece) (square : Nat) (scene : Scene) : AddResult :=
  if modelName piece ∈ scene.sourceModels then
    ⟨[Ev.placePiece (modelName piece)], some (mkPlaced piece square),
     ⟨scene.sourceModels, scene.collectionObjects ++ [mkPlaced piece square],
      scene.resolution_percentage⟩⟩
  else
    ⟨[Ev.skipPiece (modelName piece)], none, scene⟩

/- ### render_board (lines 166-216) -/

/-- `chess.Board` as the script consumes it: `board.piece_map().items()`
(line 194, in the host dict's iteration order) and `board.board_fen()`
(line 204). -/
structure Board where
  pieceMap : List (Nat × Piece)
  boardFen : String

/-- What the piece loop (lines 193-200) produced: events, the scene after
its mutations, and either the collected `piece_data` or the uncaught
exception that aborted it. -/
structure LoopResult where
  evs : List Ev
  scene : Scene
  res : Except BErr (List PieceEntry)

/-- The loop `for square, piece in board.piece_map().items():` of lines
193-200: place each piece, then call `get_bounding_box` on whatever
`add_piece` returned (even `None`); an exception aborts the loop, the
scene keeping the objects placed so far. -/
def processPieces (host : Host) (sr : RenderSettings) :
    List (Nat × Piece) → Scene → LoopResult
  | [], scene => ⟨[], scene, Except.ok []⟩
  | (square, piece) :: rest, scene =>
    match get_bounding_box host sr (add_piece piece square scene).obj with
    | Except.error e =>
      ⟨(add_piece piece square scene).evs ++ [Ev.getBox square],
       (add_piece piece square scene).scene, Except.error e⟩
    | Except.ok box =>
      ⟨(add_piece piece square scene).evs ++ [Ev.getBox square] ++
         (processPieces host sr rest (add_piece piece square scene).scene).evs,
       (processPieces host sr rest (add_piece piece square scene).scene).scene,
       Except.map (fun entries => ⟨pieceSymbol piece, square_name square, box⟩ :: entries)
         (processPieces host sr rest (add_piece piece square scene).scene).res⟩

/-- What one `render_board` call produced: its event trace, the final host
scene state, and either the files it wrote or the uncaught exception. -/
structure RBResult where
  trace : List Ev
  scene : Scene
  out : Except BErr (List FileOut)

/-- The render settings in force during the call: `render_board` sets
`resolution_x = 1200`, `resolution_y = 800` (lines 173-174) and leaves the
percentage as the scene has it. -/
def rbSR (scene : Scene) : RenderSettings := ⟨1200, 800, scene.resolution_percentage⟩

/-- The collection after the removal loop of lines 190-191. -/
def clearScene (scene : Scene) : Scene := ⟨scene.sourceModels, [], scene.resolution_percentage⟩

/-- `render_board(board, turn, output_file)`, lines 166-216, in source
order: configure rendering; randomize the camera (`CAMERA_STATIC` is
`False`) and the lighting only if `LIGHT_STATIC` is `False`; project the
board corners; create/fetch the collection and remove all its objects;
loop over the pieces (placing models and computing boxes); write the JSON
sidecar next to `output_file`; finally invoke the renderer.  An exception
escaping the loop aborts the call before anything is written. -/
def renderBoard (host : Host) (board : Board) (turn : Bool) (output_file : PyPath)
    (scene : Scene) : RBResult :=
  match (processPieces host (rbSR scene) board.pieceMap (clearScene scene)).res with
  | Except.error e =>
    ⟨(if CAMERA_STATIC = false then [Ev.setupCamera] else []) ++
       (if LIGHT_STATIC = false then [Ev.setupLighting] else []) ++
       [Ev.getCorners, Ev.clearCollection] ++
       (processPieces host (rbSR scene) board.pieceMap (clearScene scene)).evs,
     (processPieces host (rbSR scene) board.pieceMap (clearScene scene)).scene,
     Except.error e⟩
  | Except.ok entries =>
    ⟨(if CAMERA_STATIC = false then [Ev.setupCamera] else []) ++
       (if LIGHT_STATIC = false then [Ev.setupLighting] else []) ++
       [Ev.getCorners, Ev.clearCollection] ++
       (processPieces host (rbSR scene) board.pieceMap (clearScene scene)).evs ++
       [Ev.writeJson, Ev.render],
     (processPieces host (rbSR scene) board.pieceMap (clearScene scene)).scene,
     Except.ok [FileOut.jsonFile ⟨output_file.parent, output_file.stem, ".json"⟩
                  (mkDataJson board.boardFen turn
                    (get_corner_coordinates host.proj (rbSR scene)) entries),
                FileOut.imageFile output_file]⟩

/- ### Arithmetic helper lemmas -/

lemma foldl_min_le_foldl_max :
    ∀ (l : List ℚ) (x y : ℚ), x ≤ y → l.foldl min x ≤ l.foldl max y := by
  intro l
  induction l with
  | nil => intro x y h; simpa using h
  | cons a t ih =>
    intro x y h
    simp only [List.foldl]
    exact ih _ _ (le_trans (min_le_left x a) (le_trans h (le_max_left y a)))

lemma clip01_mono {a b : ℚ} (h : a ≤ b) : clip01 a ≤ clip01 b :=
  min_le_min (max_le_max h le_rfl) le_rfl

lemma bbMinX_le_bbMaxX (c : ℚ × ℚ) (cs : List (ℚ × ℚ)) : bbMinX c cs ≤ bbMaxX c cs :=
  clip01_mono (foldl_min_le_foldl_max (cs.map Prod.fst) c.1 c.1 le_rfl)

lemma bbMinY_le_bbMaxY (c : ℚ × ℚ) (cs : List (ℚ × ℚ)) : bbMinY c cs ≤ bbMaxY c cs :=
  clip01_mono (foldl_min_le_foldl_max (cs.map Prod.snd) c.2 c.2 le_rfl)

/- ### Corner-projection helper lemmas -/

lemma project_corner_some (proj : Vec3 → Vec3) (sr : RenderSettings) (c : Vec3)
    (p : ℤ × ℤ) (h : project_corner proj sr c = some p) : inPaddedFrame sr p.1 p.2 := by
  unfold project_corner at h
  split at h
  · exact Option.noConfusion h
  · next hcond =>
      rw [not_or, not_not, not_not] at hcond
      obtain rfl : cornerPixel proj sr c = p := by injection h
      exact ⟨hcond.1, hcond.2⟩

lemma project_corner_none_iff (proj : Vec3 → Vec3) (sr : RenderSettings) (c : Vec3) :
    project_corner proj sr c = none ↔
      ¬ inPaddedFrame sr (cornerPixel proj sr c).1 (cornerPixel proj sr c).2 := by
  unfold project_corner inPaddedFrame
  split_ifs with hcond
  · exact iff_of_true rfl (by tauto)
  · rw [not_or, not_not, not_not] at hcond
    exact iff_of_false (by simp) (by tauto)

lemma collect_corners_none_iff (proj : Vec3 → Vec3) (sr : RenderSettings) :
    ∀ l, collect_corners proj sr l = none ↔ ∃ c ∈ l, project_corner proj sr c = none := by
  intro l
  induction l with
  | nil => simp [collect_corners]
  | cons a t ih =>
    cases hp : project_corner proj sr a with
    | none =>
      simp only [collect_corners, hp]
      exact iff_of_true trivial ⟨a, List.mem_cons_self a t, hp⟩
    | some p =>
      cases hr : collect_corners proj sr t with
      | none =>
        simp only [collect_corners, hp, hr]
        refine iff_of_true trivial ?_
        obtain ⟨c, hc, hcn⟩ := ih.mp hr
        exact ⟨c, List.mem_cons_of_mem a hc, hcn⟩
      | some ps =>
        simp only [collect_corners, hp, hr]
        refine iff_of_false (by simp) ?_
        rintro ⟨c, hc, hcn⟩
        rcases List.mem_cons.mp hc with rfl | hct
        · rw [hp] at hcn; exact Option.noConfusion hcn
        · have h2 := ih.mpr ⟨c, hct, hcn⟩
          rw [hr] at h2
          exact Option.noConfusion h2

lemma collect_corners_some (proj : Vec3 → Vec3) (sr : RenderSettings) :
    ∀ l r, collect_corners proj sr l = some r →
      r.length = l.length ∧ ∀ p ∈ r, ∃ c ∈ l, project_corner proj sr c = some p := by
  intro l
  induction l with
  | nil =>
    intro r h
    simp only [collect_corners, Option.some.injEq] at h
    subst h
    simp
  | cons a t ih =>
    intro r h
    simp only [collect_corners] at h
    cases hp : project_corner proj sr a with
    | none => rw [hp] at h; exact Option.noConfusion h
    | some p =>
      rw [hp] at h
      cases hr : collect_corners proj sr t with
      | none => rw [hr] at h; exact Option.noConfusion h
      | some ps =>
        rw [hr] at h
        obtain rfl : p :: ps = r := by injection h
        obtain ⟨hlen, hmem⟩ := ih ps hr
        refine ⟨by simp [hlen], ?_⟩
        intro q hq
        rcases List.mem_cons.mp hq with rfl | hqs
        · exact ⟨a, List.mem_cons_self a t, hp⟩
        · obtain ⟨c, hc, hcp⟩ := hmem q hqs
          exact ⟨c, List.mem_cons_of_mem a hc, hcp⟩

/- ### get_coords helper lemmas -/

lemma get_coords_skip (v : Vec3) (rest : List Vec3) (frame : Frame3) (h : -v.z ≤ 0) :
    get_coords (v :: rest) frame = get_coords rest frame := by
  simp only [get_coords]
  rw [if_pos h]

lemma get_coords_nil_of_nonpos (frame : Frame3) :
    ∀ verts : List Vec3, (∀ v ∈ verts, -v.z ≤ 0) → get_coords verts frame = [] := by
  intro verts
  induction verts with
  | nil => intro _; rfl
  | cons v t ih =>
    intro h
    rw [get_coords_skip v t frame (h v (List.mem_cons_self v t))]
    exact ih (fun w hw => h w (List.mem_cons_of_mem v hw))

/- ### piece_location helper lemmas -/

lemma loc_coord_bound (n : Nat) (hn : n ≤ 7) :
    |(-BOARD_SIZE / 2 + BOARD_MARGIN + ((n : ℚ) + 1 / 2) * SQUARE_LENGTH)| ≤
      BOARD_SIZE / 2 - BOARD_MARGIN := by
  have h0 : (0 : ℚ) ≤ (n : ℚ) := Nat.cast_nonneg n
  have h7 : (n : ℚ) ≤ 7 := by exact_mod_cast hn
  rw [abs_le]
  simp only [BOARD_SIZE, BOARD_MARGIN, SQUARE_LENGTH]
  constructor <;> linarith

lemma loc_coord_inj {m n : Nat}
    (h : -BOARD_SIZE / 2 + BOARD_MARGIN + ((m : ℚ) + 1 / 2) * SQUARE_LENGTH =
         -BOARD_SIZE / 2 + BOARD_MARGIN + ((n : ℚ) + 1 / 2) * SQUARE_LENGTH) : m = n := by
  have hq : (m : ℚ) = (n : ℚ) := by
    simp only [BOARD_SIZE, BOARD_MARGIN, SQUARE_LENGTH] at h
    linarith
  exact_mod_cast hq

/- ### Claim theorems on the pure geometry -/

/-- Claim C2: for every camera pose (`proj`) and render resolution,
`get_corner_coordinates` returns either a list of exactly four pixel pairs,
each inside the `MIN_BOARD_CORNER_PADDING` padded frame on both axes, or
`None` exactly when one of the four projected corners falls outside that
padded frame; never a partial list. -/
theorem corner_coordinates_all_or_none (proj : Vec3 → Vec3) (sr : RenderSettings) :
    (∀ l, get_corner_coordinates proj sr = some l →
        l.length = 4 ∧ ∀ p ∈ l, inPaddedFrame sr p.1 p.2) ∧
    (get_corner_coordinates proj sr = none ↔
      ∃ c ∈ cornerPoints,
        ¬ inPaddedFrame sr (cornerPixel proj sr c).1 (cornerPixel proj sr c).2) := by
  constructor
  · intro l h
    obtain ⟨hlen, hmem⟩ := collect_corners_some proj sr cornerPoints l h
    refine ⟨hlen.trans (by simp [cornerPoints]), ?_⟩
    intro p hp
    obtain ⟨c, hc, hcp⟩ := hmem p hp
    exact project_corner_some proj sr c p hcp
  · unfold get_corner_coordinates
    rw [collect_corners_none_iff]
    constructor
    · rintro ⟨c, hc, hcn⟩
      exact ⟨c, hc, (project_corner_none_iff proj sr c).mp hcn⟩
    · rintro ⟨c, hc, hni⟩
      exact ⟨c, hc, (project_corner_none_iff proj sr c).mpr hni⟩

/-- Claim C3: whenever `get_bounding_box` actually computes a box (the
projected coordinate list is nonempty) and the render settings are
nonnegative, the clipped minima never exceed the clipped maxima, the rounded
width and height are nonnegative, the result is `None` exactly when the
rounded width or height is zero, and otherwise it is the pixel rectangle
`(x, y, width, height)`. -/
theorem bounding_box_nonneg_and_absent_iff_zero (verts : List Vec3) (frame : Frame3)
    (sr : RenderSettings) (c : ℚ × ℚ) (cs : List (ℚ × ℚ))
    (hc : get_coords verts frame = c :: cs)
    (hx : 0 ≤ sr.resolution_x) (hy : 0 ≤ sr.resolution_y)
    (hp : 0 ≤ sr.resolution_percentage) :
    (bbMinX c cs ≤ bbMaxX c cs ∧ bbMinY c cs ≤ bbMaxY c cs) ∧
    (0 ≤ bbWidth c cs sr ∧ 0 ≤ bbHeight c cs sr) ∧
    (get_bounding_box_core verts frame sr = Except.ok none ↔
      (bbWidth c cs sr = 0 ∨ bbHeight c cs sr = 0)) ∧
    (¬ (bbWidth c cs sr = 0 ∨ bbHeight c cs sr = 0) →
      get_bounding_box_core verts frame sr =
        Except.ok (some (pyRound (bbMinX c cs * dim_x sr),
                         pyRound (dim_y sr - bbMaxY c cs * dim_y sr),
                         bbWidth c cs sr, bbHeight c cs sr))) := by
  have hdx : 0 ≤ dim_x sr := by
    unfold dim_x fac
    exact mul_nonneg (by exact_mod_cast hx) (mul_nonneg hp (by norm_num))
  have hdy : 0 ≤ dim_y sr := by
    unfold dim_y fac
    exact mul_nonneg (by exact_mod_cast hy) (mul_nonneg hp (by norm_num))
  have hw : 0 ≤ bbWidth c cs sr :=
    pyRound_nonneg (mul_nonneg (sub_nonneg.mpr (bbMinX_le_bbMaxX c cs)) hdx)
  have hh : 0 ≤ bbHeight c cs sr :=
    pyRound_nonneg (mul_nonneg (sub_nonneg.mpr (bbMinY_le_bbMaxY c cs)) hdy)
  have hcore : get_bounding_box_core verts frame sr =
      if bbWidth c cs sr = 0 ∨ bbHeight c cs sr = 0 then Except.ok none
      else Except.ok (some (pyRound (bbMinX c cs * dim_x sr),
                            pyRound (dim_y sr - bbMaxY c cs * dim_y sr),
                            bbWidth c cs sr, bbHeight c cs sr)) := by
    unfold get_bounding_box_core
    rw [hc]
  refine ⟨⟨bbMinX_le_bbMaxX c cs, bbMinY_le_bbMaxY c cs⟩, ⟨hw, hh⟩, ?_, ?_⟩
  · rw [hcore]
    split_ifs with h0
    · exact iff_of_true rfl h0
    · exact iff_of_false (by simp) h0
  · intro h0
    rw [hcore, if_neg h0]

/-- Claim C9: in `get_bounding_box`, a mesh vertex whose camera-space depth
`z = -co_local.z` is nonpositive is silently skipped (the generator yields
nothing for it and leaves the frame untouched), and when every vertex has
nonpositive depth the function raises an uncaught `ValueError` (unpacking
the empty coordinate array) instead of returning `None` or a box. -/
theorem behind_camera_vertices_skipped_or_raise :
    (∀ (v : Vec3) (rest : List Vec3) (frame : Frame3), -v.z ≤ 0 →
        get_coords (v :: rest) frame = get_coords rest frame) ∧
    (∀ (verts : List Vec3) (frame : Frame3) (sr : RenderSettings),
        (∀ v ∈ verts, -v.z ≤ 0) →
        get_bounding_box_core verts frame sr = Except.error BErr.valueError) := by
  refine ⟨get_coords_skip, ?_⟩
  intro verts frame sr h
  unfold get_bounding_box_core
  rw [get_coords_nil_of_nonpos frame verts h]

/-- Claim C10: for every square 0..63, `add_piece` places the object at
`z = 0` with `x`, `y` at the square's center, strictly inside the playing
area (absolute value at most `BOARD_SIZE / 2 - BOARD_MARGIN = 7.25`), and
distinct squares get distinct locations. -/
theorem piece_location_inside_board (square : Nat) (hsq : square < 64) :
    (piece_location square).z = 0 ∧
    |(piece_location square).x| ≤ BOARD_SIZE / 2 - BOARD_MARGIN ∧
    |(piece_location square).y| ≤ BOARD_SIZE / 2 - BOARD_MARGIN ∧
    ∀ square2 : Nat, square2 < 64 → square ≠ square2 →
      piece_location square ≠ piece_location square2 := by
  refine ⟨rfl, ?_, ?_, ?_⟩
  · exact loc_coord_bound (square_file square) (by unfold square_file; omega)
  · exact loc_coord_bound (square_rank square) (by unfold square_rank; omega)
  · intro square2 hs2 hne heq
    have hx := congrArg Vec3.x heq
    have hy := congrArg Vec3.y heq
    simp only [piece_location] at hx hy
    have hf : square_file square = square_file square2 := loc_coord_inj hx
    have hr : square_rank square = square_rank square2 := loc_coord_inj hy
    unfold square_file at hf
    unfold square_rank at hr
    omega

/- ### processPieces and renderBoard helper lemmas -/

lemma add_piece_evs (piece : Piece) (square : Nat) (scene : Scene) :
    ∀ e ∈ (add_piece piece square scene).evs, e.isPieceEv = true := by
  intro e he
  unfold add_piece at he
  split at he <;> simp only [List.mem_singleton] at he <;> subst he <;> rfl

lemma add_piece_present (piece : Piece) (square : Nat) (scene : Scene)
    (hm : modelName piece ∈ scene.sourceModels) :
    add_piece piece square scene =
      ⟨[Ev.placePiece (modelName piece)], some (mkPlaced piece square),
       ⟨scene.sourceModels, scene.collectionObjects ++ [mkPlaced piece square],
        scene.resolution_percentage⟩⟩ := by
  unfold add_piece
  rw [if_pos hm]

lemma add_piece_absent (piece : Piece) (square : Nat) (scene : Scene)
    (hm : modelName piece ∉ scene.sourceModels) :
    add_piece piece square scene = ⟨[Ev.skipPiece (modelName piece)], none, scene⟩ := by
  unfold add_piece
  rw [if_neg hm]

lemma processPieces_evs (host : Host) (sr : RenderSettings) :
    ∀ (l : List (Nat × Piece)) (scene : Scene),
      ∀ e ∈ (processPieces host sr l scene).evs, e.isPieceEv = true
  | [], scene => by
    intro e he
    simp only [processPieces, List.not_mem_nil] at he
  | (square, piece) :: rest, scene => by
    intro e he
    cases hb : get_bounding_box host sr (add_piece piece square scene).obj with
    | error err =>
      simp only [processPieces, hb, List.mem_append, List.mem_singleton] at he
      rcases he with he | rfl
      · exact add_piece_evs piece square scene e he
      · rfl
    | ok box =>
      simp only [processPieces, hb, List.mem_append, List.mem_singleton] at he
      rcases he with (he | rfl) | he
      · exact add_piece_evs piece square scene e he
      · rfl
      · exact processPieces_evs host sr rest (add_piece piece square scene).scene e he

lemma processPieces_collection (host : Host) (sr : RenderSettings) :
    ∀ (l : List (Nat × Piece)) (scene : Scene),
      ∀ o ∈ (processPieces host sr l scene).scene.collectionObjects,
        o ∈ scene.collectionObjects ∨
          ∃ q ∈ l, modelName q.2 ∈ scene.sourceModels ∧ o = mkPlaced q.2 q.1
  | [], scene => by
    intro o ho
    simp only [processPieces] at ho
    exact Or.inl ho
  | (square, piece) :: rest, scene => by
    intro o ho
    by_cases hm : modelName piece ∈ scene.sourceModels
    · simp only [processPieces] at ho
      rw [add_piece_present piece square scene hm] at ho
      cases hb : get_bounding_box host sr (some (mkPlaced piece square)) with
      | error err =>
        simp only [hb] at ho
        rcases List.mem_append.mp ho with ho | ho
        · exact Or.inl ho
        · rw [List.mem_singleton] at ho
          exact Or.inr ⟨(square, piece), List.mem_cons_self _ _, hm, ho⟩
      | ok box =>
        simp only [hb] at ho
        rcases processPieces_collection host sr rest _ o ho with ho2 | ho2
        · rcases List.mem_append.mp ho2 with ho3 | ho3
          · exact Or.inl ho3
          · rw [List.mem_singleton] at ho3
            exact Or.inr ⟨(square, piece), List.mem_cons_self _ _, hm, ho3⟩
        · obtain ⟨q, hq, hqm, hqo⟩ := ho2
          exact Or.inr ⟨q, List.mem_cons_of_mem _ hq, hqm, hqo⟩
    · simp only [processPieces] at ho
      rw [add_piece_absent piece square scene hm] at ho
      simp only [get_bounding_box] at ho
      exact Or.inl ho

lemma processPieces_entries (host : Host) (sr : RenderSettings) :
    ∀ (l : List (Nat × Piece)) (scene : Scene) (entries : List PieceEntry),
      (processPieces host sr l scene).res = Except.ok entries →
      entries.map (fun e => (e.piece, e.square)) =
        l.map (fun q => (pieceSymbol q.2, square_name q.1))
  | [], scene, entries => by
    intro h
    simp only [processPieces, Except.ok.injEq] at h
    subst h
    rfl
  | (square, piece) :: rest, scene, entries => by
    intro h
    cases hb : get_bounding_box host sr (add_piece piece square scene).obj with
    | error err =>
      simp only [processPieces, hb] at h
      exact Except.noConfusion h
    | ok box =>
      simp only [processPieces, hb] at h
      cases hr : (processPieces host sr rest (add_piece piece square scene).scene).res with
      | error err =>
        rw [hr] at h
        simp only [Except.map] at h
        exact Except.noConfusion h
      | ok tail =>
        rw [hr] at h
        simp only [Except.map, Except.ok.injEq] at h
        subst h
        simp only [List.map]
        exact congrArg (List.cons _)
          (processPieces_entries host sr rest (add_piece piece square scene).scene tail hr)

lemma renderBoard_trace (host : Host) (board : Board) (turn : Bool) (f : PyPath)
    (scene : Scene) :
    (renderBoard host board turn f scene).trace =
      [Ev.setupCamera, Ev.getCorners, Ev.clearCollection] ++
        (processPieces host (rbSR scene) board.pieceMap (clearScene scene)).evs ++
        (match (processPieces host (rbSR scene) board.pieceMap (clearScene scene)).res with
         | Except.error _ => []
         | Except.ok _ => [Ev.writeJson, Ev.render]) := by
  unfold renderBoard
  cases (processPieces host (rbSR scene) board.pieceMap (clearScene scene)).res with
  | error e => simp [CAMERA_STATIC, LIGHT_STATIC]
  | ok entries => simp [CAMERA_STATIC, LIGHT_STATIC]

lemma renderBoard_scene (host : Host) (board : Board) (turn : Bool) (f : PyPath)
    (scene : Scene) :
    (renderBoard host board turn f scene).scene =
      (processPieces host (rbSR scene) board.pieceMap (clearScene scene)).scene := by
  unfold renderBoard
  cases (processPieces host (rbSR scene) board.pieceMap (clearScene scene)).res with
  | error e => rfl
  | ok entries => rfl

lemma renderBoard_out (host : Host) (board : Board) (turn : Bool) (f : PyPath)
    (scene : Scene) :
    (renderBoard host board turn f scene).out =
      match (processPieces host (rbSR scene) board.pieceMap (clearScene scene)).res with
      | Except.error e => Except.error e
      | Except.ok entries =>
        Except.ok [FileOut.jsonFile ⟨f.parent, f.stem, ".json"⟩
                     (mkDataJson board.boardFen turn
                       (get_corner_coordinates host.proj (rbSR scene)) entries),
                   FileOut.imageFile f] := by
  unfold renderBoard
  cases (processPieces host (rbSR scene) board.pieceMap (clearScene scene)).res with
  | error e => rfl
  | ok entries => rfl

lemma renderBoard_trace_cases (host : Host) (board : Board) (turn : Bool) (f : PyPath)
    (scene : Scene) :
    ∃ tail, (renderBoard host board turn f scene).trace =
        [Ev.setupCamera, Ev.getCorners, Ev.clearCollection] ++
          (processPieces host (rbSR scene) board.pieceMap (clearScene scene)).evs ++ tail ∧
      (tail = [] ∨ tail = [Ev.writeJson, Ev.render]) := by
  rw [renderBoard_trace]
  cases (processPieces host (rbSR scene) board.pieceMap (clearScene scene)).res with
  | error e => exact ⟨[], rfl, Or.inl rfl⟩
  | ok entries => exact ⟨[Ev.writeJson, Ev.render], rfl, Or.inr rfl⟩

/- ### Concrete fixtures for counterexamples and witnesses -/

/-- A degenerate camera pose: every point projects to the origin (so every
projected corner lands outside the padded frame). -/
def projA : Vec3 → Vec3 := fun _ => ⟨0, 0, 0⟩

/-- A negated view frame at depth 1 spanning x,y in [-1, 1]. -/
def frameB : Frame3 := ⟨⟨-1, -1, 1⟩, ⟨-1, 1, 1⟩, ⟨1, 1, 1⟩⟩

/-- A host whose pieces have no mesh vertices (never consulted on the runs
below that use it). -/
def hostA : Host := ⟨projA, fun _ => [], ⟨⟨0, 0, 0⟩, ⟨0, 0, 0⟩, ⟨0, 0, 0⟩⟩⟩

/-- A host whose every piece mesh is the single camera-space vertex
`(0, 0, -1)` (depth 1, centered in the view frame `frameB`). -/
def hostB : Host := ⟨projA, fun _ => [⟨0, 0, -1⟩], frameB⟩

def whitePawn : Piece := ⟨true, PieceType.pawn⟩

def blackKing : Piece := ⟨false, PieceType.king⟩

/-- An empty board. -/
def board0 : Board := ⟨[], "8/8/8/8/8/8/8/8"⟩

/-- A board with one white pawn on a2 (square 8). -/
def board1 : Board := ⟨[(8, whitePawn)], "8/8/8/8/8/8/P7/8"⟩

/-- A board with a white pawn on a2 and a black king on e8 (square 60). -/
def board2 : Board := ⟨[(8, whitePawn), (60, blackKing)], "4k3/8/8/8/8/8/P7/8"⟩

def path0 : PyPath := ⟨"render", "0000", ".png"⟩

/-- A scene with no source models at all. -/
def scene0 : Scene := ⟨[], [], 100⟩

/-- A scene that has only the "White Pawn" model, with a stale object from a
previous sample still in the collection. -/
def scene1 : Scene := ⟨["White Pawn"], [mkPlaced blackKing 60], 100⟩

/-- A scene that has only the "Black King" model (no "White Pawn"). -/
def scene2 : Scene := ⟨["Black King"], [], 100⟩

/-- The render settings `render_board` installs: 1200 x 800 at 100%. -/
def sr0 : RenderSettings := ⟨1200, 800, 100⟩

/- ### Evaluation lemmas on the fixtures -/

lemma pyRound_zero : pyRound 0 = 0 := by
  unfold pyRound
  norm_num

lemma get_coords_eval : get_coords [⟨0, 0, -1⟩] frameB = [((1 : ℚ)/2, (1 : ℚ)/2)] := by
  unfold get_coords frameB scaleFrame vecDivScale
  norm_num
  rfl

lemma get_bounding_box_core_cons (verts : List Vec3) (frame : Frame3) (sr : RenderSettings)
    (c : ℚ × ℚ) (cs : List (ℚ × ℚ)) (hc : get_coords verts frame = c :: cs) :
    get_bounding_box_core verts frame sr =
      if bbWidth c cs sr = 0 ∨ bbHeight c cs sr = 0 then Except.ok none
      else Except.ok (some (pyRound (bbMinX c cs * dim_x sr),
                            pyRound (dim_y sr - bbMaxY c cs * dim_y sr),
                            bbWidth c cs sr, bbHeight c cs sr)) := by
  unfold get_bounding_box_core
  rw [hc]

lemma bbWidth_single_zero (q : ℚ × ℚ) (sr : RenderSettings) : bbWidth q [] sr = 0 := by
  unfold bbWidth bbMaxX bbMinX listMax listMin
  simp only [List.map_nil, List.foldl_nil, sub_self, zero_mul]
  exact pyRound_zero

lemma bbox_core_meshB : get_bounding_box_core [⟨0, 0, -1⟩] frameB sr0 = Except.ok none := by
  rw [get_bounding_box_core_cons _ _ _ _ _ get_coords_eval,
    if_pos (Or.inl (bbWidth_single_zero _ _))]

lemma get_bounding_box_hostB_pawn :
    get_bounding_box hostB (rbSR scene1) (some (mkPlaced whitePawn 8)) = Except.ok none := by
  show get_bounding_box_core [⟨0, 0, -1⟩] frameB (rbSR scene1) = Except.ok none
  exact bbox_core_meshB

lemma processPieces_board1 :
    processPieces hostB (rbSR scene1) board1.pieceMap (clearScene scene1) =
      ⟨[Ev.placePiece "White Pawn", Ev.getBox 8],
       ⟨["White Pawn"], [mkPlaced whitePawn 8], 100⟩,
       Except.ok [⟨pieceSymbol whitePawn, "a2", none⟩]⟩ := by
  have hm : modelName whitePawn ∈ (clearScene scene1).sourceModels :=
    List.mem_singleton.mpr rfl
  show processPieces hostB (rbSR scene1) [(8, whitePawn)] (clearScene scene1) = _
  simp only [processPieces, add_piece_present whitePawn 8 (clearScene scene1) hm]
  rw [get_bounding_box_hostB_pawn]
  rfl

lemma renderBoard_board1_trace :
    (renderBoard hostB board1 true path0 scene1).trace =
      [Ev.setupCamera, Ev.getCorners, Ev.clearCollection,
       Ev.placePiece "White Pawn", Ev.getBox 8, Ev.writeJson, Ev.render] := by
  rw [renderBoard_trace, processPieces_board1]
  rfl

lemma renderBoard_board1_out :
    (renderBoard hostB board1 true path0 scene1).out =
      Except.ok [FileOut.jsonFile ⟨"render", "0000", ".json"⟩
                   (mkDataJson "8/8/8/8/8/8/P7/8" true
                     (get_corner_coordinates hostB.proj (rbSR scene1))
                     [⟨pieceSymbol whitePawn, "a2", none⟩]),
                 FileOut.imageFile path0] := by
  rw [renderBoard_out, processPieces_board1]
  rfl

/- ### Claim theorems on render_board -/

/-- Claim C1 (code bug): when a piece's source model (here "White Pawn") is
absent from the scene, `add_piece` logs and returns `None`, but
`render_board` still passes that `None` to `get_bounding_box`, whose
attribute access raises an uncaught `AttributeError`: the run aborts, the
remaining pieces (the black king) are never placed and no JSON is written —
contradicting the documented skip-and-continue behavior. -/
theorem missing_model_raises_attribute_error :
    (renderBoard hostA board2 true path0 scene2).out = Except.error BErr.attributeError ∧
    Ev.skipPiece "White Pawn" ∈ (renderBoard hostA board2 true path0 scene2).trace ∧
    Ev.placePiece "Black King" ∉ (renderBoard hostA board2 true path0 scene2).trace ∧
    Ev.writeJson ∉ (renderBoard hostA board2 true path0 scene2).trace := by
  refine ⟨rfl, ?_, ?_, ?_⟩ <;> decide

/-- Claim C4, counterexample: on a concrete call, `render_board` never
invokes the lighting randomization (`LIGHT_STATIC` is `True`). -/
theorem lighting_not_randomized_on_fixture :
    Ev.setupLighting ∉ (renderBoard hostA board0 true path0 scene0).trace := by
  decide

/-- Claim C4 (amended): `render_board` samples the camera anew on every call
(`CAMERA_STATIC` is `False`), but because `LIGHT_STATIC` is `True` it never
invokes the lighting randomization `setup_lighting`. -/
theorem camera_randomized_lighting_static (host : Host) (board : Board) (turn : Bool)
    (f : PyPath) (scene : Scene) :
    Ev.setupCamera ∈ (renderBoard host board turn f scene).trace ∧
    Ev.setupLighting ∉ (renderBoard host board turn f scene).trace := by
  obtain ⟨tail, htr, htail⟩ := renderBoard_trace_cases host board turn f scene
  rw [htr]
  constructor
  · simp
  · intro hmem
    rcases List.mem_append.mp hmem with hmem | hmem
    · rcases List.mem_append.mp hmem with hmem | hmem
      · simp at hmem
      · have := processPieces_evs host (rbSR scene) board.pieceMap (clearScene scene) _ hmem
        simp [Ev.isPieceEv] at this
    · rcases htail with rfl | rfl
      · simp at hmem
      · simp at hmem

/-- Claim C5: every call of `render_board` that completes writes exactly one
JSON file, in the image's directory and with the image's base name, whose
record holds exactly the FEN, the side-to-move flag, the corner list or
null, and one entry per piece (symbol, square name, box or null), in board
order. -/
theorem json_record_shape_and_basename (host : Host) (board : Board) (turn : Bool)
    (f : PyPath) (scene : Scene) (outs : List FileOut)
    (h : (renderBoard host board turn f scene).out = Except.ok outs) :
    ∃ corners entries,
      outs = [FileOut.jsonFile ⟨f.parent, f.stem, ".json"⟩
                (mkDataJson board.boardFen turn corners entries),
              FileOut.imageFile f] ∧
      entries.map (fun e => (e.piece, e.square)) =
        board.pieceMap.map (fun q => (pieceSymbol q.2, square_name q.1)) := by
  rw [renderBoard_out] at h
  cases hres : (processPieces host (rbSR scene) board.pieceMap (clearScene scene)).res with
  | error e =>
    rw [hres] at h
    exact Except.noConfusion h
  | ok entries =>
    rw [hres] at h
    refine ⟨get_corner_coordinates host.proj (rbSR scene), entries, ?_,
      processPieces_entries host (rbSR scene) board.pieceMap (clearScene scene) entries hres⟩
    exact (Except.ok.inj h).symm

/-- Claim C5, witness: the single-pawn fixture run writes the JSON sidecar
`render/0000.json` with the expected record. -/
theorem json_record_shape_witness :
    ∃ corners entries,
      [FileOut.jsonFile ⟨"render", "0000", ".json"⟩
         (mkDataJson "8/8/8/8/8/8/P7/8" true
           (get_corner_coordinates hostB.proj (rbSR scene1))
           [⟨pieceSymbol whitePawn, "a2", none⟩]),
       FileOut.imageFile path0] =
        [FileOut.jsonFile ⟨path0.parent, path0.stem, ".json"⟩
           (mkDataJson board1.boardFen true corners entries),
         FileOut.imageFile path0] ∧
      entries.map (fun e => (e.piece, e.square)) =
        board1.pieceMap.map (fun q => (pieceSymbol q.2, square_name q.1)) :=
  json_record_shape_and_basename hostB board1 true path0 scene1 _ renderBoard_board1_out

/-- Claim C6: every `render_board` call empties the "Chess position"
collection right after projecting the corners and before placing any piece,
so the final collection holds only objects placed for this board's pieces
from the scene's available models — nothing leaks across samples. -/
theorem collection_cleared_before_pieces (host : Host) (board : Board) (turn : Bool)
    (f : PyPath) (scene : Scene) :
    (∃ mid, (renderBoard host board turn f scene).trace =
        [Ev.setupCamera, Ev.getCorners, Ev.clearCollection] ++ mid ∧
        Ev.clearCollection ∉ mid) ∧
    ∀ o ∈ (renderBoard host board turn f scene).scene.collectionObjects,
      ∃ q ∈ board.pieceMap, modelName q.2 ∈ scene.sourceModels ∧ o = mkPlaced q.2 q.1 := by
  obtain ⟨tail, htr, htail⟩ := renderBoard_trace_cases host board turn f scene
  constructor
  · refine ⟨(processPieces host (rbSR scene) board.pieceMap (clearScene scene)).evs ++ tail,
      ?_, ?_⟩
    · rw [htr, List.append_assoc]
    · intro hmem
      rcases List.mem_append.mp hmem with hmem | hmem
      · have := processPieces_evs host (rbSR scene) board.pieceMap (clearScene scene) _ hmem
        simp [Ev.isPieceEv] at this
      · rcases htail with rfl | rfl
        · simp at hmem
        · simp at hmem
  · intro o ho
    rw [renderBoard_scene] at ho
    rcases processPieces_collection host (rbSR scene) board.pieceMap (clearScene scene) o ho
      with h | h
    · simp [clearScene] at h
    · exact h

/-- Claim C7, counterexample: on a concrete call, `get_corner_coordinates`
runs before the piece model is instantiated, and the JSON metadata file is
written strictly before the renderer is invoked — the claimed order
(instantiate, project, render, then write) is wrong on both counts. -/
theorem json_written_before_render_on_fixture :
    (List.indexOf Ev.writeJson (renderBoard hostB board1 true path0 scene1).trace <
       List.indexOf Ev.render (renderBoard hostB board1 true path0 scene1).trace ∧
     Ev.writeJson ∈ (renderBoard hostB board1 true path0 scene1).trace ∧
     Ev.render ∈ (renderBoard hostB board1 true path0 scene1).trace) ∧
    (List.indexOf Ev.getCorners (renderBoard hostB board1 true path0 scene1).trace <
       List.indexOf (Ev.placePiece "White Pawn")
         (renderBoard hostB board1 true path0 scene1).trace ∧
     Ev.placePiece "White Pawn" ∈ (renderBoard hostB board1 true path0 scene1).trace) := by
  simp only [renderBoard_board1_trace]
  decide

/-- Claim C7 (amended): on every completed call the order is: camera setup,
corner projection, collection clearing, then the piece loop (instantiation
interleaved with bounding boxes), then the JSON metadata write, and only
then the render invocation. -/
theorem metadata_written_before_render (host : Host) (board : Board) (turn : Bool)
    (f : PyPath) (scene : Scene) (outs : List FileOut)
    (h : (renderBoard host board turn f scene).out = Except.ok outs) :
    ∃ mid, (renderBoard host board turn f scene).trace =
        [Ev.setupCamera, Ev.getCorners, Ev.clearCollection] ++ mid ++
          [Ev.writeJson, Ev.render] ∧
      ∀ e ∈ mid, e.isPieceEv = true := by
  rw [renderBoard_out] at h
  rw [renderBoard_trace]
  cases hres : (processPieces host (rbSR scene) board.pieceMap (clearScene scene)).res with
  | error e =>
    rw [hres] at h
    exact Except.noConfusion h
  | ok entries =>
    exact ⟨_, rfl, processPieces_evs host (rbSR scene) board.pieceMap (clearScene scene)⟩

/-- Claim C7, witness: the single-pawn fixture run exhibits the amended
order. -/
theorem metadata_written_before_render_witness :
    ∃ mid, (renderBoard hostB board1 true path0 scene1).trace =
        [Ev.setupCamera, Ev.getCorners, Ev.clearCollection] ++ mid ++
          [Ev.writeJson, Ev.render] ∧
      ∀ e ∈ mid, e.isPieceEv = true :=
  metadata_written_before_render hostB board1 true path0 scene1 _ renderBoard_board1_out

/-- Claim C8, counterexample: a concrete call succeeds and its JSON record
holds exactly the keys fen, white_turn, corners and pieces — the sampled
camera and lighting parameters appear nowhere in the output metadata. -/
theorem scene_params_absent_from_metadata :
    (renderBoard hostA board0 true path0 scene0).out =
      Except.ok [FileOut.jsonFile ⟨"render", "0000", ".json"⟩
                   (mkDataJson "8/8/8/8/8/8/8/8" true
                     (get_corner_coordinates hostA.proj (rbSR scene0)) []),
                 FileOut.imageFile path0] ∧
    jsonTopKeys (mkDataJson "8/8/8/8/8/8/8/8" true
        (get_corner_coordinates hostA.proj (rbSR scene0)) []) =
      ["fen", "white_turn", "corners", "pieces"] :=
  ⟨rfl, rfl⟩

/-- Claim C8 (amended): the per-render scene configuration is not reported
in the output metadata: on every completed call the JSON record's keys are
exactly fen, white_turn, corners and pieces, so the sampled camera and
lighting parameters are not persisted anywhere. -/
theorem metadata_only_board_fields (host : Host) (board : Board) (turn : Bool)
    (f : PyPath) (scene : Scene) (outs : List FileOut)
    (h : (renderBoard host board turn f scene).out = Except.ok outs) :
    ∃ jp rec, outs = [FileOut.jsonFile jp rec, FileOut.imageFile f] ∧
      jsonTopKeys rec = ["fen", "white_turn", "corners", "pieces"] := by
  rw [renderBoard_out] at h
  cases hres : (processPieces host (rbSR scene) board.pieceMap (clearScene scene)).res with
  | error e =>
    rw [hres] at h
    exact Except.noConfusion h
  | ok entries =>
    rw [hres] at h
    exact ⟨_, _, (Except.ok.inj h).symm, rfl⟩

/-- Claim C8, witness: the single-pawn fixture run's metadata has exactly
the four board-data keys. -/
theorem metadata_only_board_fields_witness :
    ∃ jp rec,
      [FileOut.jsonFile ⟨"render", "0000", ".json"⟩
         (mkDataJson "8/8/8/8/8/8/P7/8" true
           (get_corner_coordinates hostB.proj (rbSR scene1))
           [⟨pieceSymbol whitePawn, "a2", none⟩]),
       FileOut.imageFile path0] = [FileOut.jsonFile jp rec, FileOut.imageFile path0] ∧
      jsonTopKeys rec = ["fen", "white_turn", "corners", "pieces"] :=
  metadata_only_board_fields hostB board1 true path0 scene1 _ renderBoard_board1_out

/-- Claim C3, witness: a one-vertex mesh centered in the view frame yields a
zero-width box, so the result is reported absent. -/
theorem bounding_box_shape_witness :
    (bbMinX ((1 : ℚ)/2, (1 : ℚ)/2) [] ≤ bbMaxX ((1 : ℚ)/2, (1 : ℚ)/2) [] ∧
     bbMinY ((1 : ℚ)/2, (1 : ℚ)/2) [] ≤ bbMaxY ((1 : ℚ)/2, (1 : ℚ)/2) []) ∧
    (0 ≤ bbWidth ((1 : ℚ)/2, (1 : ℚ)/2) [] sr0 ∧
     0 ≤ bbHeight ((1 : ℚ)/2, (1 : ℚ)/2) [] sr0) ∧
    (get_bounding_box_core [⟨0, 0, -1⟩] frameB sr0 = Except.ok none ↔
      (bbWidth ((1 : ℚ)/2, (1 : ℚ)/2) [] sr0 = 0 ∨
       bbHeight ((1 : ℚ)/2, (1 : ℚ)/2) [] sr0 = 0)) ∧
    (¬ (bbWidth ((1 : ℚ)/2, (1 : ℚ)/2) [] sr0 = 0 ∨
        bbHeight ((1 : ℚ)/2, (1 : ℚ)/2) [] sr0 = 0) →
      get_bounding_box_core [⟨0, 0, -1⟩] frameB sr0 =
        Except.ok (some (pyRound (bbMinX ((1 : ℚ)/2, (1 : ℚ)/2) [] * dim_x sr0),
                         pyRound (dim_y sr0 - bbMaxY ((1 : ℚ)/2, (1 : ℚ)/2) [] * dim_y sr0),
                         bbWidth ((1 : ℚ)/2, (1 : ℚ)/2) [] sr0,
                         bbHeight ((1 : ℚ)/2, (1 : ℚ)/2) [] sr0))) :=
  bounding_box_nonneg_and_absent_iff_zero [⟨0, 0, -1⟩] frameB sr0 ((1 : ℚ)/2, (1 : ℚ)/2) []
    get_coords_eval (by norm_num [sr0]) (by norm_num [sr0]) (by norm_num [sr0])

/-- Claim C10, witness: square a1 is placed at height zero and apart from
square b1. -/
theorem piece_location_witness :
    (piece_location 0).z = 0 ∧
    |(piece_location 0).x| ≤ BOARD_SIZE / 2 - BOARD_MARGIN ∧
    |(piece_location 0).y| ≤ BOARD_SIZE / 2 - BOARD_MARGIN ∧
    ∀ square2 : Nat, square2 < 64 → 0 ≠ square2 →
      piece_location 0 ≠ piece_location square2 :=
  piece_location_inside_board 0 (by norm_num)
